import Mathlib

/-!
Shallow embedding of the watchlist stock-data service (`src/data.py`).

Strings are Lean `String`s, prices are rationals, timestamps are records of
calendar fields.  Each definition below is translated from the Python source:
`init_db`, `add_to_watchlist`, `remove_from_watchlist`, and the body of
`get_watchlist_with_data` (split into the per-bar time-bucket formatter, the
per-symbol fetch processing and the final aggregation loop).
-/

/-- Zero-padded two-digit rendering, the translation of Python's `{n:02d}`
format (and of `strftime` two-digit fields such as `%m`, `%d`, `%y`). -/
def pad2 (n : Nat) : String :=
  if n < 10 then "0" ++ toString n else toString n

/-- Zero-padded four-digit rendering, the translation of `strftime`'s `%Y`. -/
def pad4 (n : Nat) : String :=
  if n < 10 then "000" ++ toString n
  else if n < 100 then "00" ++ toString n
  else if n < 1000 then "0" ++ toString n
  else toString n

/-- Three-letter weekday abbreviation (`strftime` `%a`); weekday 0 is Monday,
matching Python's `datetime.weekday` convention. -/
def weekdayAbbrev (w : Nat) : String :=
  ["Mon", "Tue", "Wed", "Thu", "Fri", "Sat", "Sun"].getD w "Mon"

/-- Three-letter month abbreviation (`strftime` `%b`); months are 1-based. -/
def monthAbbrev (m : Nat) : String :=
  ["Jan", "Feb", "Mar", "Apr", "May", "Jun",
   "Jul", "Aug", "Sep", "Oct", "Nov", "Dec"].getD (m - 1) "Jan"

/-- Calendar fields of a bar's timestamp (the pandas index entry): the pieces
of `index` that `get_watchlist_with_data` reads (`.hour`, `.minute`, and the
`strftime` fields `%Y %m %d %a`). -/
structure Timestamp where
  year : Nat
  month : Nat
  day : Nat
  hour : Nat
  minute : Nat
  weekday : Nat
deriving DecidableEq

/-- Translation of the interval-dispatched `abbreviated_date` computation in
`get_watchlist_with_data` (src/data.py lines 166-203): sub-hour intervals get
a 12-hour clock label with minutes, `1h`/`90m` get an hour-precision 12-hour
label, then the calendar formats, and a 4-digit year for everything else. -/
def formatTimeBucket (interval : String) (ts : Timestamp) : String :=
  if interval ∈ ["1m", "2m", "5m", "15m", "30m"] then
    if ts.hour = 0 then "12:" ++ pad2 ts.minute ++ " AM"
    else if ts.hour < 12 then toString ts.hour ++ ":" ++ pad2 ts.minute ++ " AM"
    else if ts.hour = 12 then "12:" ++ pad2 ts.minute ++ " PM"
    else toString (ts.hour - 12) ++ ":" ++ pad2 ts.minute ++ " PM"
  else if interval ∈ ["1h", "90m"] then
    if ts.hour = 0 then "12:00 AM"
    else if ts.hour < 12 then toString ts.hour ++ ":00 AM"
    else if ts.hour = 12 then "12:00 PM"
    else toString (ts.hour - 12) ++ ":00 PM"
  else if interval = "1d" then pad2 ts.month ++ "/" ++ pad2 ts.day
  else if interval = "1wk" then weekdayAbbrev ts.weekday
  else if interval = "1mo" then pad2 ts.month ++ "/" ++ pad2 ts.day
  else if interval ∈ ["3mo", "6mo"] then monthAbbrev ts.month ++ " " ++ pad2 (ts.year % 100)
  else pad4 ts.year

/-- List of `valid_intervals` advertised by the `/api/info` endpoint
(src/data.py line 575). -/
def valid_intervals : List String :=
  ["1m", "2m", "5m", "15m", "30m", "60m", "90m", "1h", "1d", "5d", "1wk", "1mo", "3mo"]

/-- Round a rational to the nearest integer, ties to even: the behaviour of
Python's built-in `round` at the value level. -/
def roundHalfEven (q : ℚ) : ℤ :=
  if q - ⌊q⌋ < 1 / 2 then ⌊q⌋
  else if q - ⌊q⌋ > 1 / 2 then ⌊q⌋ + 1
  else if ⌊q⌋ % 2 = 0 then ⌊q⌋ else ⌊q⌋ + 1

/-- Translation of Python's `round(x, 2)` on a price. -/
def round2 (q : ℚ) : ℚ :=
  (roundHalfEven (q * 100) : ℚ) / 100

/-- One OHLCV sample of a fetched series (a row of the `ticker.history`
dataframe together with its index timestamp). -/
structure Bar where
  ts : Timestamp
  «open» : ℚ
  high : ℚ
  low : ℚ
  close : ℚ
  volume : Nat
deriving DecidableEq

/-- Metadata coming back from `ticker.info`: the two keys the watchlist code
reads.  A key can be absent (`none`); Python truthiness also treats an empty
string as missing in the validation check. -/
structure TickerInfo where
  symbol : Option String
  longName : Option String
deriving DecidableEq

/-- Translation of Python's `str.upper` on ticker symbols (ASCII): uppercase
every character. -/
def upper (s : String) : String :=
  String.mk (s.data.map Char.toUpper)

/-- Python truthiness of an optional string (`info.get(key)` used in a
boolean position): missing and empty are falsy. -/
def truthy : Option String → Bool
  | none => false
  | some s => !s.isEmpty

/-- Outcome of `ticker.history` + `ticker.info` for one symbol: a series of
bars with metadata, or a raised provider exception.  An empty bar list is the
`hist.empty` (NoData) case. -/
inductive FetchResult where
  | ok (bars : List Bar) (meta : TickerInfo)
  | err (msg : String)
deriving DecidableEq

/-- Per-symbol value stored in the `results` dict of
`get_watchlist_with_data`: either the company name, labelled chart data and
current/previous prices, or an `{'error': ...}` marker. -/
inductive SymbolResult where
  | ok (company : String) (chart : List (String × ℚ)) (current_price previous_price : ℚ)
  | error (msg : String)
deriving DecidableEq

/-- Translation of the per-symbol body of the fetch loop in
`get_watchlist_with_data` (src/data.py lines 157-223): on a non-empty
history, label every bar, round the closes, and take current = last close,
previous = second-to-last close (or current when only one bar exists); an
empty history yields the `'No data found'` error marker and an exception
yields its message. -/
def processSymbol (fetch : String → String → String → FetchResult)
    (period interval symbol : String) : SymbolResult :=
  match fetch symbol period interval with
  | FetchResult.err e => SymbolResult.error e
  | FetchResult.ok bars meta =>
    match bars.getLast? with
    | none => SymbolResult.error "No data found"
    | some last =>
      let chart := bars.map (fun b => (formatTimeBucket interval b.ts, round2 b.close))
      let current_price := round2 last.close
      let previous_price :=
        match bars.dropLast.getLast? with
        | some prev => round2 prev.close
        | none => current_price
      SymbolResult.ok (meta.longName.getD "N/A") chart current_price previous_price

/-- One element of the aggregated `watchlist` array returned by
`GET /api/watchlist/data`. -/
structure WatchlistEntry where
  symbol : String
  name : String
  price : ℚ
  change : ℚ
  changePercent : ℚ
deriving DecidableEq

/-- Translation of the consolidation loop of `get_watchlist_with_data`
(src/data.py lines 225-241): walk the symbols in store order, skip any whose
result carries an error marker, and derive change and changePercent from the
current and previous prices. -/
def buildWatchlistData (fetch : String → String → String → FetchResult)
    (period interval : String) (symbols : List String) : List WatchlistEntry :=
  symbols.filterMap (fun symbol =>
    match processSymbol fetch period interval symbol with
    | SymbolResult.error _ => none
    | SymbolResult.ok name _ current_price previous_price =>
      let change := current_price - previous_price
      let change_percent := if previous_price ≠ 0 then change / previous_price * 100 else 0
      some { symbol := symbol, name := name, price := current_price,
             change := change, changePercent := change_percent })

/-- JSON body of a successful `GET /api/watchlist/data` response; `count` is
optional because the empty-store early return emits no `count` key. -/
structure DataResponse where
  watchlist : List WatchlistEntry
  count : Option Nat
deriving DecidableEq

/-- Translation of `get_watchlist_with_data` (src/data.py lines 134-246):
an empty store returns `{'watchlist': []}` immediately; otherwise the
aggregated list is returned together with its length as `count`. -/
def get_watchlist_with_data (store : List String)
    (fetch : String → String → String → FetchResult)
    (period interval : String) : DataResponse :=
  if store.isEmpty then { watchlist := [], count := none }
  else
    let wd := buildWatchlistData fetch period interval store
    { watchlist := wd, count := some wd.length }

/-- Default symbols seeded by `init_db` (src/data.py line 33). -/
def default_stocks : List String :=
  ["AAPL", "GOOGL", "MSFT", "TSLA", "NVDA"]

/-- Translation of `init_db` (src/data.py lines 16-37) acting on the stored
symbol list (insertion order): the default stocks are inserted only when the
table is empty. -/
def init_db (store : List String) : List String :=
  if store.isEmpty then default_stocks else store

/-- Translation of `add_to_watchlist` (src/data.py lines 70-107) acting on
the stored symbol list, returning the new store and the HTTP status: the
symbol is uppercased, validated against `ticker.info` (400 when both keys
are falsy), inserted unless the UNIQUE constraint fires (409), else appended
(201). -/
def add_to_watchlist (info : String → TickerInfo) (store : List String)
    (symbol : String) : List String × Nat :=
  let s := upper symbol
  let i := info s
  if !truthy i.symbol && !truthy i.longName then (store, 400)
  else if s ∈ store then (store, 409)
  else (store ++ [s], 201)

/-- Translation of `remove_from_watchlist` (src/data.py lines 109-131):
the symbol is uppercased and deleted; a zero rowcount yields 404. -/
def remove_from_watchlist (store : List String) (symbol : String) :
    List String × Nat :=
  let s := upper symbol
  if s ∈ store then (store.filter (fun x => x != s), 200) else (store, 404)

/-- Boolean success test for a symbol's fetch outcome, as the consolidation
loop sees it (`stock_data and not stock_data.get('error')`). -/
def fetchSucceeds (fetch : String → String → String → FetchResult)
    (period interval symbol : String) : Bool :=
  match processSymbol fetch period interval symbol with
  | SymbolResult.ok _ _ _ _ => true
  | SymbolResult.error _ => false


/-! ### Specification-side renderings (for refinement comparison with §4.3) -/

/-- Specification-side 12-hour hour rendering: hour 0 and hour 12 render as
"12", any hour above 12 as hour minus 12, morning hours as themselves. -/
def spec_hour12 (h : Nat) : String :=
  if h = 0 ∨ h = 12 then "12" else if h < 12 then toString h else toString (h - 12)

/-- Specification-side meridiem marker: AM strictly before hour 12, PM from
hour 12 on. -/
def spec_meridiem (h : Nat) : String :=
  if h < 12 then "AM" else "PM"

/-! ### Concrete fixtures used to instantiate the theorems -/

/-- Fixture provider returning a two-bar ascending series with closes 100 and
105 (the worked example of §8) and company name "ACME". -/
def fetchW : String → String → String → FetchResult := fun _ _ _ =>
  FetchResult.ok [⟨⟨2024, 1, 2, 10, 0, 1⟩, 100, 100, 100, 100, 0⟩,
                  ⟨⟨2024, 1, 2, 10, 5, 1⟩, 105, 105, 105, 105, 0⟩] ⟨none, some "ACME"⟩

/-- The aggregated entry produced from `fetchW` for one watched symbol. -/
def entryW : WatchlistEntry := ⟨"AAPL", "ACME", 105, 5, 5⟩

/-- Fixture provider returning a single-bar series with close 100. -/
def fetchSingle : String → String → String → FetchResult := fun _ _ _ =>
  FetchResult.ok [⟨⟨2024, 1, 2, 10, 0, 1⟩, 100, 100, 100, 100, 0⟩] ⟨none, some "ACME"⟩

/-- Fixture provider whose last two closes 10 and 10.004 round to the same
price, separating rounded from raw differences. -/
def fetchRound : String → String → String → FetchResult := fun _ _ _ =>
  FetchResult.ok [⟨⟨2024, 1, 2, 10, 0, 1⟩, 10, 10, 10, 10, 0⟩,
                  ⟨⟨2024, 1, 2, 10, 5, 1⟩, 2501 / 250, 2501 / 250, 2501 / 250, 2501 / 250, 0⟩]
    ⟨none, some "ACME"⟩

/-- Fixture provider that always raises. -/
def fetchNone : String → String → String → FetchResult := fun _ _ _ =>
  FetchResult.err "provider offline"

/-! ### Helper lemma -/

/-- Unfolding lemma: the consolidation loop on a cons cell either keeps the
head symbol as a new entry or drops it, then continues with the tail. -/
theorem buildWatchlistData_cons (fetch : String → String → String → FetchResult)
    (period interval s : String) (rest : List String) :
    buildWatchlistData fetch period interval (s :: rest)
      = (match processSymbol fetch period interval s with
         | SymbolResult.error _ => buildWatchlistData fetch period interval rest
         | SymbolResult.ok name _ current_price previous_price =>
           { symbol := s, name := name, price := current_price,
             change := current_price - previous_price,
             changePercent := if previous_price ≠ 0 then
               (current_price - previous_price) / previous_price * 100 else 0 }
             :: buildWatchlistData fetch period interval rest) := by
  simp only [buildWatchlistData, List.filterMap_cons]
  cases processSymbol fetch period interval s <;> rfl

/-! ### Claim theorems -/

/-- C1: every WatchlistEntry the aggregator emits satisfies
`change = current_price - previous_price` and
`changePercent = change / previous_price * 100`, except that a zero previous
price yields `changePercent = 0` (a guard, not an exception). -/
theorem watchlist_entry_change_invariant
    (fetch : String → String → String → FetchResult) (period interval : String)
    (symbols : List String) (e : WatchlistEntry)
    (he : e ∈ buildWatchlistData fetch period interval symbols) :
    ∃ name chart current_price previous_price,
      processSymbol fetch period interval e.symbol
        = SymbolResult.ok name chart current_price previous_price ∧
      e.price = current_price ∧
      e.change = current_price - previous_price ∧
      e.changePercent
        = (if previous_price ≠ 0 then e.change / previous_price * 100 else 0) := by
  simp only [buildWatchlistData] at he
  rcases List.mem_filterMap.mp he with ⟨s, _hs, hsome⟩
  cases hps : processSymbol fetch period interval s with
  | error m => simp [hps] at hsome
  | ok name chart c p =>
    simp only [hps, Option.some.injEq] at hsome
    subst hsome
    exact ⟨name, chart, c, p, hps, rfl, rfl, rfl⟩

/-- C1 witness: for the two-bar fixture with previous close 100 and current
close 105 the emitted entry has change 5 and changePercent 5. -/
theorem watchlist_entry_change_invariant_witness :
    ∃ name chart current_price previous_price,
      processSymbol fetchW "1d" "5m" entryW.symbol
        = SymbolResult.ok name chart current_price previous_price ∧
      entryW.price = current_price ∧
      entryW.change = current_price - previous_price ∧
      entryW.changePercent
        = (if previous_price ≠ 0 then entryW.change / previous_price * 100 else 0) := by
  have hps : processSymbol fetchW "1d" "5m" "AAPL"
      = SymbolResult.ok "ACME" [("10:00 AM", 100), ("10:05 AM", 105)] 105 100 := by
    norm_num [processSymbol, fetchW, List.getLast?, List.getLast, List.dropLast,
      round2, roundHalfEven, formatTimeBucket, pad2]
    decide
  have hb : buildWatchlistData fetchW "1d" "5m" ["AAPL"] = [entryW] := by
    rw [buildWatchlistData_cons, hps]
    norm_num [buildWatchlistData, entryW]
  exact watchlist_entry_change_invariant fetchW "1d" "5m" ["AAPL"] entryW
    (by rw [hb]; exact List.mem_singleton_self _)

/-- C2: for every timestamp, a sub-hour interval is labelled on a 12-hour
clock with minute precision and AM/PM and an hourly-class interval with hour
precision, where hour 0 renders as 12 AM, hour 12 as 12 PM, and any hour
above 12 as hour minus 12 PM; in particular hour 0 minute 5 sub-hour gives
"12:05 AM", hour 13 gives "1:00 PM", and hour 12 hourly gives "12:00 PM". -/
theorem time_bucket_twelve_hour (ts : Timestamp) (i : String) :
    (i ∈ ["1m", "2m", "5m", "15m", "30m"] →
      formatTimeBucket i ts
        = spec_hour12 ts.hour ++ ":" ++ pad2 ts.minute ++ " " ++ spec_meridiem ts.hour) ∧
    (i ∈ ["1h", "90m"] →
      formatTimeBucket i ts
        = spec_hour12 ts.hour ++ ":00 " ++ spec_meridiem ts.hour) ∧
    formatTimeBucket "5m" ⟨2024, 1, 2, 0, 5, 1⟩ = "12:05 AM" ∧
    formatTimeBucket "5m" ⟨2024, 1, 2, 13, 0, 1⟩ = "1:00 PM" ∧
    formatTimeBucket "1h" ⟨2024, 1, 2, 12, 0, 1⟩ = "12:00 PM" := by
  refine ⟨?_, ?_, by decide, by decide, by decide⟩
  · intro hi
    simp only [formatTimeBucket, if_pos hi]
    by_cases h0 : ts.hour = 0
    · rw [if_pos h0]
      apply String.ext
      simp [spec_hour12, spec_meridiem, h0, String.data_append, List.append_assoc]
    · rw [if_neg h0]
      by_cases hlt : ts.hour < 12
      · rw [if_pos hlt]
        apply String.ext
        have h12 : ¬ ts.hour = 12 := by omega
        simp [spec_hour12, spec_meridiem, h0, h12, hlt, String.data_append, List.append_assoc]
      · rw [if_neg hlt]
        by_cases h12 : ts.hour = 12
        · rw [if_pos h12]
          apply String.ext
          simp [spec_hour12, spec_meridiem, h0, h12, hlt, String.data_append, List.append_assoc]
        · rw [if_neg h12]
          apply String.ext
          simp [spec_hour12, spec_meridiem, h0, h12, hlt, String.data_append, List.append_assoc]
  · intro hi
    have hi' : i = "1h" ∨ i = "90m" := by simpa using hi
    have hni : ¬ i ∈ ["1m", "2m", "5m", "15m", "30m"] := by
      rcases hi' with h | h <;> subst h <;> decide
    simp only [formatTimeBucket, if_neg hni, if_pos hi]
    by_cases h0 : ts.hour = 0
    · rw [if_pos h0]
      apply String.ext
      simp [spec_hour12, spec_meridiem, h0, String.data_append, List.append_assoc]
    · rw [if_neg h0]
      by_cases hlt : ts.hour < 12
      · rw [if_pos hlt]
        apply String.ext
        have h12 : ¬ ts.hour = 12 := by omega
        simp [spec_hour12, spec_meridiem, h0, h12, hlt, String.data_append, List.append_assoc]
      · rw [if_neg hlt]
        by_cases h12 : ts.hour = 12
        · rw [if_pos h12]
          apply String.ext
          simp [spec_hour12, spec_meridiem, h0, h12, hlt, String.data_append, List.append_assoc]
        · rw [if_neg h12]
          apply String.ext
          simp [spec_hour12, spec_meridiem, h0, h12, hlt, String.data_append, List.append_assoc]

/-- C2 witness: for hour 14 minute 5 on a sub-hour interval the code's label
agrees with the specification rendering ("2:05 PM"). -/
theorem time_bucket_twelve_hour_witness :
    formatTimeBucket "1m" ⟨2024, 1, 2, 14, 5, 1⟩
      = spec_hour12 14 ++ ":" ++ pad2 5 ++ " " ++ spec_meridiem 14 :=
  (time_bucket_twelve_hour ⟨2024, 1, 2, 14, 5, 1⟩ "1m").1 (by decide)

/-- C3: the aggregated watchlist view contains exactly the symbols whose
fetch succeeded, in store order; a failed symbol (NoData or provider error)
is simply omitted and does not prevent its siblings from appearing. -/
theorem aggregated_view_exactly_successes
    (fetch : String → String → String → FetchResult) (period interval : String)
    (symbols : List String) :
    (buildWatchlistData fetch period interval symbols).map WatchlistEntry.symbol
      = symbols.filter (fetchSucceeds fetch period interval) := by
  induction symbols with
  | nil => rfl
  | cons s rest ih =>
    rw [buildWatchlistData_cons, List.filter_cons]
    cases hps : processSymbol fetch period interval s with
    | ok name chart c p =>
      have hs : fetchSucceeds fetch period interval s = true := by
        simp [fetchSucceeds, hps]
      simp [hs, ih]
    | error m =>
      have hs : fetchSucceeds fetch period interval s = false := by
        simp [fetchSucceeds, hps]
      simp [hs, ih]

/-- C4 counterexample: with no symbols watched the endpoint's response holds
an empty watchlist but no `count` key at all, contradicting the claimed
`count = 0` field. -/
theorem empty_watchlist_data_count_counterexample :
    (get_watchlist_with_data [] fetchNone "1d" "5m").watchlist = [] ∧
    (get_watchlist_with_data [] fetchNone "1d" "5m").count ≠ some 0 := by
  refine ⟨rfl, ?_⟩
  simp [get_watchlist_with_data]

/-- C4 amended: when no symbols are watched, `GET /api/watchlist/data`
returns a JSON object containing an empty watchlist list and omitting the
`count` field. -/
theorem empty_watchlist_data_no_count
    (fetch : String → String → String → FetchResult) (period interval : String) :
    get_watchlist_with_data [] fetch period interval
      = { watchlist := [], count := none } := rfl

/-- C5: when a fetched series has length exactly one, the previous price
equals the current price (the sole element's rounded close), so the derived
change and changePercent are both zero instead of the computation failing. -/
theorem single_bar_previous_equals_current
    (fetch : String → String → String → FetchResult) (period interval symbol : String)
    (b : Bar) (meta : TickerInfo)
    (h : fetch symbol period interval = FetchResult.ok [b] meta) :
    processSymbol fetch period interval symbol
      = SymbolResult.ok (meta.longName.getD "N/A")
          [(formatTimeBucket interval b.ts, round2 b.close)]
          (round2 b.close) (round2 b.close) ∧
    buildWatchlistData fetch period interval [symbol]
      = [{ symbol := symbol, name := meta.longName.getD "N/A",
           price := round2 b.close, change := 0, changePercent := 0 }] := by
  have hps : processSymbol fetch period interval symbol
      = SymbolResult.ok (meta.longName.getD "N/A")
          [(formatTimeBucket interval b.ts, round2 b.close)]
          (round2 b.close) (round2 b.close) := by
    simp [processSymbol, h, List.getLast?, List.getLast, List.dropLast]
  refine ⟨hps, ?_⟩
  rw [buildWatchlistData_cons, hps]
  norm_num [buildWatchlistData]

/-- C5 witness: a one-bar series with close 100 yields previous = current =
100 and an entry with change 0 and changePercent 0. -/
theorem single_bar_previous_equals_current_witness :
    processSymbol fetchSingle "1d" "5m" "AAPL"
      = SymbolResult.ok "ACME" [("10:00 AM", 100)] 100 100 ∧
    buildWatchlistData fetchSingle "1d" "5m" ["AAPL"]
      = [{ symbol := "AAPL", name := "ACME", price := 100,
           change := 0, changePercent := 0 }] := by
  have h := single_bar_previous_equals_current fetchSingle "1d" "5m" "AAPL"
    ⟨⟨2024, 1, 2, 10, 0, 1⟩, 100, 100, 100, 100, 0⟩ ⟨none, some "ACME"⟩ rfl
  have e1 : round2 (100 : ℚ) = 100 := by norm_num [round2, roundHalfEven]
  have e2 : formatTimeBucket "5m" ⟨2024, 1, 2, 10, 0, 1⟩ = "10:00 AM" := by decide
  simpa [e1, e2] using h

/-- C6: an add request uppercases the symbol before use, and adding a symbol
already present (under any case combination) fails with HTTP 409 while
leaving the store unchanged with exactly one stored entry for the symbol. -/
theorem add_duplicate_conflict (info : String → TickerInfo) (store : List String)
    (symbol : String)
    (hvalid : (truthy (info (upper symbol)).symbol
      || truthy (info (upper symbol)).longName) = true)
    (hmem : upper symbol ∈ store) (hnd : store.Nodup) :
    add_to_watchlist info store symbol = (store, 409) ∧
    store.count (upper symbol) = 1 := by
  constructor
  · have hcond : (!truthy (info (upper symbol)).symbol
        && !truthy (info (upper symbol)).longName) = false := by
      cases h1 : truthy (info (upper symbol)).symbol <;>
        cases h2 : truthy (info (upper symbol)).longName <;> simp_all
    simp [add_to_watchlist, hcond, hmem]
  · exact List.count_eq_one_of_mem hnd hmem

/-- C6 witness: adding "aapl" when "AAPL" is stored answers 409 and leaves
the store unchanged with a single "AAPL" entry. -/
theorem add_duplicate_conflict_witness :
    upper "aapl" ∈ ["AAPL", "MSFT"] ∧
    add_to_watchlist (fun _ => ⟨some "AAPL", some "Apple Inc."⟩) ["AAPL", "MSFT"] "aapl"
      = (["AAPL", "MSFT"], 409) ∧
    (["AAPL", "MSFT"] : List String).count (upper "aapl") = 1 := by
  have h := add_duplicate_conflict (fun _ => ⟨some "AAPL", some "Apple Inc."⟩)
    ["AAPL", "MSFT"] "aapl" (by decide) (by decide) (by decide)
  exact ⟨by decide, h.1, h.2⟩

/-- C7: a remove request whose uppercased symbol is absent from the store
answers HTTP 404 and leaves the store's contents unchanged. -/
theorem remove_absent_not_found (store : List String) (symbol : String)
    (h : upper symbol ∉ store) :
    remove_from_watchlist store symbol = (store, 404) := by
  simp [remove_from_watchlist, h]

/-- C7 witness: removing the never-added "msft" from a store holding only
"AAPL" answers 404 with the store untouched. -/
theorem remove_absent_not_found_witness :
    upper "msft" ∉ ["AAPL"] ∧ remove_from_watchlist ["AAPL"] "msft" = (["AAPL"], 404) :=
  ⟨by decide, remove_absent_not_found ["AAPL"] "msft" (by decide)⟩

/-- C8: store initialization seeds the fixed default symbols only when the
store is empty; against a non-empty store it inserts nothing, and running it
twice equals running it once. -/
theorem init_db_seeds_only_when_empty :
    init_db [] = default_stocks ∧
    (∀ store : List String, store ≠ [] → init_db store = store) ∧
    (∀ store : List String, init_db (init_db store) = init_db store) := by
  refine ⟨rfl, ?_, ?_⟩
  · intro store h
    cases store with
    | nil => exact absurd rfl h
    | cons a l => rfl
  · intro store
    cases store <;> rfl

/-- C8 witness: initializing a store that already holds "IBM" changes
nothing. -/
theorem init_db_seeds_only_when_empty_witness :
    init_db ["IBM"] = ["IBM"] :=
  init_db_seeds_only_when_empty.2.1 ["IBM"] (by decide)

/-- C9: the interval token "60m" is listed as valid by `/api/info`, yet it
matches neither the sub-hour nor the hourly branch of the time-bucket
formatter, so its label is the 4-digit-year fallback rather than an
hourly-class 12-hour label. -/
theorem sixty_minute_interval_year_fallback :
    "60m" ∈ valid_intervals ∧
    ¬ "60m" ∈ (["1h", "90m"] : List String) ∧
    (∀ ts : Timestamp, formatTimeBucket "60m" ts = pad4 ts.year) ∧
    formatTimeBucket "60m" ⟨2024, 3, 14, 13, 0, 3⟩ = "2024" ∧
    formatTimeBucket "1h" ⟨2024, 3, 14, 13, 0, 3⟩ = "1:00 PM" := by
  refine ⟨by decide, by decide, fun ts => rfl, by decide, by decide⟩

/-- C10: the aggregator rounds the last and second-to-last closes to two
decimals before differencing, so change and changePercent are functions of
the rounded closes; raw closes 10.004 and 10 differ yet their rounded change
is 0. -/
theorem change_uses_rounded_closes :
    (∀ (fetch : String → String → String → FetchResult) (period interval symbol : String)
       (bars : List Bar) (meta : TickerInfo) (bprev blast : Bar),
      fetch symbol period interval = FetchResult.ok bars meta →
      bars.getLast? = some blast →
      bars.dropLast.getLast? = some bprev →
      ∃ name chart,
        processSymbol fetch period interval symbol
          = SymbolResult.ok name chart (round2 blast.close) (round2 bprev.close) ∧
        buildWatchlistData fetch period interval [symbol]
          = [{ symbol := symbol, name := name, price := round2 blast.close,
               change := round2 blast.close - round2 bprev.close,
               changePercent := if round2 bprev.close ≠ 0 then
                 (round2 blast.close - round2 bprev.close) / round2 bprev.close * 100
                 else 0 }]) ∧
    round2 (2501 / 250 : ℚ) - round2 (10 : ℚ) = 0 ∧ (2501 / 250 : ℚ) - 10 ≠ 0 := by
  refine ⟨?_, by norm_num [round2, roundHalfEven], by norm_num⟩
  intro fetch period interval symbol bars meta bprev blast h hl hp
  have hps : processSymbol fetch period interval symbol
      = SymbolResult.ok (meta.longName.getD "N/A")
          (bars.map (fun b => (formatTimeBucket interval b.ts, round2 b.close)))
          (round2 blast.close) (round2 bprev.close) := by
    simp [processSymbol, h, hl, hp]
  refine ⟨_, _, hps, ?_⟩
  rw [buildWatchlistData_cons, hps]
  rfl

/-- C10 witness: for the fixture whose last two closes are 10 and 10.004 the
emitted prices are the rounded closes (both 10). -/
theorem change_uses_rounded_closes_witness :
    ∃ name chart,
      processSymbol fetchRound "1d" "5m" "AAPL"
        = SymbolResult.ok name chart (round2 ((2501 : ℚ) / 250)) (round2 (10 : ℚ)) ∧
      buildWatchlistData fetchRound "1d" "5m" ["AAPL"]
        = [{ symbol := "AAPL", name := name, price := round2 ((2501 : ℚ) / 250),
             change := round2 ((2501 : ℚ) / 250) - round2 (10 : ℚ),
             changePercent := if round2 (10 : ℚ) ≠ 0 then
               (round2 ((2501 : ℚ) / 250) - round2 (10 : ℚ)) / round2 (10 : ℚ) * 100
               else 0 }] :=
  change_uses_rounded_closes.1 fetchRound "1d" "5m" "AAPL"
    [⟨⟨2024, 1, 2, 10, 0, 1⟩, 10, 10, 10, 10, 0⟩,
     ⟨⟨2024, 1, 2, 10, 5, 1⟩, 2501 / 250, 2501 / 250, 2501 / 250, 2501 / 250, 0⟩]
    ⟨none, some "ACME"⟩
    ⟨⟨2024, 1, 2, 10, 0, 1⟩, 10, 10, 10, 10, 0⟩
    ⟨⟨2024, 1, 2, 10, 5, 1⟩, 2501 / 250, 2501 / 250, 2501 / 250, 2501 / 250, 0⟩
    rfl rfl rfl
